import Mathlib

/-!
Shallow embedding of the rendering engine in `src/display.rs` of the cyme
repository (USB device-tree pretty printer), together with proofs about it.

Conventions of the embedding:
* Rust `String`/`&str` values are modelled as `List Char` (`RStr`); `.len()`
  is modelled as character count (all inputs considered here are ASCII, where
  byte length and character count agree).
* Rust `u8`/`u16`/`usize` are modelled as `Nat`; truncating casts are written
  with an explicit `% 2 ^ w`.
* `HashMap<B, usize>` padding tables are modelled as functions `B → Option Nat`
  (`HashMap::get` returns an `Option`).
* Randomness (`rand::thread_rng`) is modelled as an explicit oracle: a stream
  of draws `Nat → Nat`, one draw per generated character; per-device streams
  are indexed by the device's path in the tree.
* Entity types (`USBDevice`, `USBBus`, ...) live in `system_profiler.rs` /
  `usb.rs`, which are not part of the sources under review; they are modelled
  as passive records carrying exactly the fields `display.rs` reads.
  Methods of those types used by `display.rs` (`port_path`,
  `get_branch_position`, `flatten`, ...) are modelled from the spec and are
  marked as such in their doc comments.
-/

namespace Cyme

/-- Strings are modelled as lists of characters. -/
abbrev RStr := List Char

/-- Rust `format!("{:w$}", s)` for a string argument: left aligned, padded on
the right with spaces up to width `w` (no-op when `s` is at least that wide). -/
def pad_right (s : RStr) (w : Nat) : RStr := s ++ List.replicate (w - s.length) ' '

/-- Rust `format!("{:w$}", n)` for a numeric argument rendering `s`, and
`format!("{:>w$}", s)`: right aligned, padded on the left with spaces. -/
def pad_left (s : RStr) (w : Nat) : RStr := List.replicate (w - s.length) ' ' ++ s

/-- Rust `format!("{:0w$x}", v)` zero padding of an already-rendered digit
string up to width `w`. -/
def zero_pad (s : RStr) (w : Nat) : RStr := List.replicate (w - s.length) '0' ++ s

/-- Rust `format!("{:^w$}", s)`: centred, extra space on the right. -/
def center (s : RStr) (w : Nat) : RStr :=
  let p := w - s.length
  List.replicate (p / 2) ' ' ++ s ++ List.replicate (p - p / 2) ' '

/-- `iter().map(f).max().unwrap_or(0)` over a list of `Nat`. -/
def list_max (l : List Nat) : Nat := l.foldr max 0

/-- Decimal digit character. -/
def digit_char (n : Nat) : Char := Char.ofNat (48 + n)

/-- Lower-case hexadecimal digit character. -/
def hex_char (n : Nat) : Char :=
  if n < 10 then Char.ofNat (48 + n) else Char.ofNat (87 + n)

/-- Fuelled decimal rendering (most significant digit first). -/
def dec_digits_aux : Nat → Nat → RStr
  | 0, _ => []
  | fuel + 1, n =>
    if n < 10 then [digit_char n]
    else dec_digits_aux fuel (n / 10) ++ [digit_char (n % 10)]

/-- Decimal rendering of a `Nat`, as Rust `format!("{}", n)` produces. -/
def nat_to_dec (n : Nat) : RStr := dec_digits_aux (n + 1) n

/-- Fuelled lower-case hexadecimal rendering (most significant digit first). -/
def hex_digits_aux : Nat → Nat → RStr
  | 0, _ => []
  | fuel + 1, n =>
    if n < 16 then [hex_char n]
    else hex_digits_aux fuel (n / 16) ++ [hex_char (n % 16)]

/-- Lower-case hexadecimal rendering of a `Nat` (`format!("{:x}", n)`). -/
def nat_to_hex (n : Nat) : RStr := hex_digits_aux (n + 1) n

/-- Endpoint data direction (`usb.rs`, used by `display.rs`). -/
inductive Direction where
  | In
  | Out
deriving DecidableEq, Repr

/-- Tree-drawing and classification icons from `icon.rs` that `display.rs`
requests (`icon.rs` is not under review; only the variants used here are
modelled). -/
inductive Icon where
  | TreeLine
  | TreeBlank
  | TreeEdge
  | TreeCorner
  | TreeBusStart
  | TreeDeviceTerminator
  | TreeConfigurationTerminator
  | TreeInterfaceTerminator
  | Endpoint (d : Direction)
deriving DecidableEq, Repr

/-- Modelled from the spec: `icon.rs` provides "pure-ASCII connectors
depending on an ASCII/Unicode toggle"; the concrete glyph strings are icon
theme content, out of scope, and no claim depends on them. -/
def get_ascii_tree_icon : Icon → RStr
  | .TreeLine => "| ".toList
  | .TreeBlank => "  ".toList
  | .TreeEdge => "|-".toList
  | .TreeCorner => "+-".toList
  | .TreeBusStart => "/:".toList
  | .TreeDeviceTerminator => "o".toList
  | .TreeConfigurationTerminator => "-".toList
  | .TreeInterfaceTerminator => ".".toList
  | .Endpoint .In => ">".toList
  | .Endpoint .Out => "<".toList

/-- `location_id` record of a `USBDevice` (`system_profiler.rs`): the fields
`display.rs` reads are the bus number, the bus-assigned device number and the
chain of port positions back to the trunk. -/
structure LocationId where
  bus : Nat
  number : Nat
  tree_positions : List Nat
deriving DecidableEq, Repr

/-- A USB endpoint: `display.rs` reads `address.number`, `address.direction`,
`interval` and the endpoint lists' lengths. -/
structure EndpointAddress where
  number : Nat
  direction : Direction
deriving DecidableEq, Repr

/-- A USB endpoint (`usb.rs`), carrying the fields `display.rs` reads that the
claims touch. -/
structure USBEndpoint where
  address : EndpointAddress
  interval : Nat
deriving DecidableEq, Repr

/-- A USB interface (`usb.rs`); only the fields the claims touch. -/
structure USBInterface where
  number : Nat
  endpoints : List USBEndpoint
deriving DecidableEq, Repr

/-- A USB configuration (`usb.rs`); only the fields the claims touch. -/
structure USBConfiguration where
  number : Nat := 0
  interfaces : List USBInterface := []
deriving DecidableEq, Repr

/-- The `extra` block of a `USBDevice` (present only when deep enumeration
succeeded). -/
structure DeviceExtra where
  syspath : Option RStr := none
  driver : Option RStr := none
  product_name : Option RStr := none
  vendor : Option RStr := none
  configurations : List USBConfiguration := []
deriving DecidableEq, Repr

/-- The non-recursive payload of a `USBDevice` (`system_profiler.rs`): every
field `display.rs` reads. `to_string`-rendered foreign values (speed, bcd
versions, class) are modelled by their rendered string. `port_path()` and
`get_branch_position()` are methods on the device; modelled from the spec as
stored attributes ("Linux style port path", "position of device in parent
branch"). The source field `class` is named `device_class` here (`class` is a
reserved word in Lean). -/
structure USBDeviceData where
  name : RStr := []
  serial_num : Option RStr := none
  manufacturer : Option RStr := none
  location_id : LocationId := ⟨0, 0, []⟩
  branch_position : Nat := 0
  port_path : RStr := []
  vendor_id : Option Nat := none
  product_id : Option Nat := none
  device_speed : Option RStr := none
  bus_power : Option Nat := none
  bus_power_used : Option Nat := none
  extra_current_used : Option Nat := none
  bcd_device : Option RStr := none
  bcd_usb : Option RStr := none
  device_class : Option RStr := none
  sub_class : Option Nat := none
  protocol : Option Nat := none
  extra : Option DeviceExtra := none
deriving Repr

/-- A USB device: its payload plus, recursively, the optional ordered list of
child devices (hub ports). -/
inductive USBDevice where
  | mk (data : USBDeviceData) (devices : Option (List USBDevice))

/-- The payload of a device. -/
def USBDevice.data : USBDevice → USBDeviceData
  | .mk d _ => d

/-- The optional child devices of a device. -/
def USBDevice.devices : USBDevice → Option (List USBDevice)
  | .mk _ ds => ds

/-- The serial string of a device. -/
def USBDevice.serial_num (d : USBDevice) : Option RStr := d.data.serial_num

/-- A USB bus (`system_profiler.rs`); only the fields the claims touch. -/
structure USBBus where
  bus_number : Nat := 0
  devices : Option (List USBDevice) := none

/-- `SPUSBDataType` (`system_profiler.rs`): the whole system tree. -/
structure SPUSBDataType where
  buses : List USBBus

/-- Info that can be printed about a `USBDevice` (`enum DeviceBlocks`). -/
inductive DeviceBlocks where
  | BusNumber
  | DeviceNumber
  | BranchPosition
  | PortPath
  | SysPath
  | Driver
  | Icon
  | VendorId
  | ProductId
  | Name
  | Manufacturer
  | ProductName
  | VendorName
  | Serial
  | Speed
  | TreePositions
  | BusPower
  | BusPowerUsed
  | ExtraCurrentUsed
  | BcdDevice
  | BcdUsb
  | ClassCode
  | SubClass
  | Protocol
deriving DecidableEq, Repr

/-- Info that can be printed about a `USBBus` (`enum BusBlocks`). -/
inductive BusBlocks where
  | BusNumber
  | Icon
  | Name
  | HostController
  | PciVendor
  | PciDevice
  | PciRevision
  | PortPath
deriving DecidableEq, Repr

/-- Info that can be printed about a `USBConfiguration`
(`enum ConfigurationBlocks`). -/
inductive ConfigurationBlocks where
  | Name
  | Number
  | NumInterfaces
  | Attributes
  | IconAttributes
  | MaxPower
deriving DecidableEq, Repr

/-- Info that can be printed about a `USBInterface` (`enum InterfaceBlocks`). -/
inductive InterfaceBlocks where
  | Name
  | Number
  | PortPath
  | ClassCode
  | SubClass
  | Protocol
  | AltSetting
  | Driver
  | SysPath
  | NumEndpoints
  | Icon
deriving DecidableEq, Repr

/-- Info that can be printed about a `USBEndpoint` (`enum EndpointBlocks`). -/
inductive EndpointBlocks where
  | Number
  | Direction
  | TransferType
  | SyncType
  | UsageType
  | MaxPacketSize
  | Interval
deriving DecidableEq, Repr

/-- Value to sort `USBDevice` (source `enum Sort`; `Sort` is reserved in
Lean, hence the name `SortOrder`). -/
inductive SortOrder where
  | BranchPosition
  | DeviceNumber
  | NoSort
deriving DecidableEq, Repr

/-- Value to group `USBDevice` (`enum Group`). -/
inductive Group where
  | NoGroup
  | Bus
deriving DecidableEq, Repr

/-- Options for `PrintSettings.mask_serials` (`enum MaskSerial`). -/
inductive MaskSerial where
  | Hide
  | Scramble
  | Replace
deriving DecidableEq, Repr

/-- An icon theme (`icon.rs`, not under review): `display.rs` only calls the
lookup functions modelled as fields here; the theme content is external. -/
structure IconTheme where
  get_tree_icon : Icon → RStr
  get_device_icon : USBDevice → RStr

/-- A colour theme (`colour.rs`, not under review). Its content only affects
ANSI colouring, which no claim touches; it is modelled as an opaque record. -/
structure ColourTheme where
  dummy : Unit

/-- `struct PrintSettings`: the immutable per-render configuration aggregate. -/
structure PrintSettings where
  no_padding : Bool := false
  decimal : Bool := false
  tree : Bool := false
  hide_buses : Bool := false
  sort_devices : SortOrder := .BranchPosition
  sort_buses : Bool := false
  group_devices : Group := .NoGroup
  headings : Bool := false
  verbosity : Nat := 0
  more : Bool := false
  json : Bool := false
  mask_serials : Option MaskSerial := none
  device_blocks : Option (List DeviceBlocks) := none
  bus_blocks : Option (List BusBlocks) := none
  config_blocks : Option (List ConfigurationBlocks) := none
  interface_blocks : Option (List InterfaceBlocks) := none
  endpoint_blocks : Option (List EndpointBlocks) := none
  icons : Option IconTheme := none
  colours : Option ColourTheme := none

/-- Trait default method `Block::format_base_u16`: `format!("{:6}", v)` when
decimal, else `format!("0x{:04x}", v)`. -/
def format_base_u16 (v : Nat) (settings : PrintSettings) : RStr :=
  if settings.decimal then pad_left (nat_to_dec v) 6
  else '0' :: 'x' :: zero_pad (nat_to_hex v) 4

/-- Trait default method `Block::format_base_u8`: `format!("{:3}", v)` when
decimal, else `format!("0x{:02x}", v)`. -/
def format_base_u8 (v : Nat) (settings : PrintSettings) : RStr :=
  if settings.decimal then pad_left (nat_to_dec v) 3
  else '0' :: 'x' :: zero_pad (nat_to_hex v) 2

/-- A padding table (`HashMap<B, usize>`); `get` yields `Option Nat`. -/
abbrev Pad (B : Type) := B → Option Nat

/-- The empty padding table (`Default::default()` / `HashMap::new()`). -/
def empty_pad {B : Type} : Pad B := fun _ => none

/-- `ICON_HEADING` constant. -/
def ICON_HEADING : RStr := "I".toList

/-- `DeviceBlocks::heading`. -/
def DeviceBlocks.heading (b : DeviceBlocks) (pad : Pad DeviceBlocks) : RStr :=
  match b with
  | .BusNumber => "Bus".toList
  | .DeviceNumber => " # ".toList
  | .BranchPosition => "Prt".toList
  | .PortPath => center "PPath".toList ((pad b).getD 0)
  | .SysPath => center "SPath".toList ((pad b).getD 0)
  | .Driver => center "Driver".toList ((pad b).getD 0)
  | .VendorId => center "VID".toList 6
  | .ProductId => center "PID".toList 6
  | .Name => center "Name".toList ((pad b).getD 0)
  | .Manufacturer => center "Manufacturer".toList ((pad b).getD 0)
  | .ProductName => center "PName".toList ((pad b).getD 0)
  | .VendorName => center "VName".toList ((pad b).getD 0)
  | .Serial => center "Serial".toList ((pad b).getD 0)
  | .Speed => center "Speed".toList 10
  | .TreePositions => center "TPos".toList ((pad b).getD 0)
  | .BusPower => "PBus".toList
  | .BusPowerUsed => "PUsd".toList
  | .ExtraCurrentUsed => "PExr".toList
  | .BcdDevice => "Dev V".toList
  | .BcdUsb => "USB V".toList
  | .ClassCode => center "Class".toList ((pad b).getD 0)
  | .SubClass => "SubC".toList
  | .Protocol => "Pcol".toList
  | .Icon => ICON_HEADING

/-- `DeviceBlocks::generate_padding`: a table keyed by the ten variable-width
variants; each width is the max of the heading length (taken with an empty
table) and the per-device field lengths, `max().unwrap_or(0)`. -/
def DeviceBlocks.generate_padding (d : List USBDevice) : Pad DeviceBlocks :=
  fun b =>
    match b with
    | .Name =>
      some (max (DeviceBlocks.Name.heading empty_pad).length
        (list_max (d.map (fun dev => dev.data.name.length))))
    | .Serial =>
      some (max (DeviceBlocks.Serial.heading empty_pad).length
        (list_max (d.map (fun dev => (dev.data.serial_num.getD []).length))))
    | .Manufacturer =>
      some (max (DeviceBlocks.Manufacturer.heading empty_pad).length
        (list_max (d.map (fun dev => (dev.data.manufacturer.getD []).length))))
    | .TreePositions =>
      some (max (DeviceBlocks.TreePositions.heading empty_pad).length
        (list_max (d.map (fun dev => dev.data.location_id.tree_positions.length * 2))))
    | .PortPath =>
      some (max (DeviceBlocks.PortPath.heading empty_pad).length
        (list_max (d.map (fun dev => dev.data.port_path.length))))
    | .SysPath =>
      some (max (DeviceBlocks.SysPath.heading empty_pad).length
        (list_max (d.map (fun dev =>
          (dev.data.extra.map (fun e => (e.syspath.getD []).length)).getD 0))))
    | .Driver =>
      some (max (DeviceBlocks.Driver.heading empty_pad).length
        (list_max (d.map (fun dev =>
          (dev.data.extra.map (fun e => (e.driver.getD []).length)).getD 0))))
    | .ProductName =>
      some (max (DeviceBlocks.ProductName.heading empty_pad).length
        (list_max (d.map (fun dev =>
          (dev.data.extra.map (fun e => (e.product_name.getD []).length)).getD 0))))
    | .VendorName =>
      some (max (DeviceBlocks.VendorName.heading empty_pad).length
        (list_max (d.map (fun dev =>
          (dev.data.extra.map (fun e => (e.vendor.getD []).length)).getD 0))))
    | .ClassCode =>
      some (max (DeviceBlocks.ClassCode.heading empty_pad).length
        (list_max (d.map (fun dev => (dev.data.device_class.getD []).length))))
    | _ => none

/-- `DeviceBlocks::value_is_string`. -/
def DeviceBlocks.value_is_string (b : DeviceBlocks) : Bool :=
  match b with
  | .Name | .Serial | .PortPath | .Manufacturer => true
  | _ => false

/-- `DeviceBlocks::format_value`: renders one cell for a device; `None` only
in the `Icon` arm when the settings carry no icon theme. The `-` placeholder
stands in for absent optional attributes. -/
def DeviceBlocks.format_value (b : DeviceBlocks) (d : USBDevice)
    (pad : Pad DeviceBlocks) (settings : PrintSettings) : Option RStr :=
  match b with
  | .BusNumber => some (pad_left (nat_to_dec d.data.location_id.bus) 3)
  | .DeviceNumber => some (pad_left (nat_to_dec d.data.location_id.number) 3)
  | .BranchPosition => some (pad_left (nat_to_dec d.data.branch_position) 3)
  | .PortPath => some (pad_right d.data.port_path ((pad b).getD 0))
  | .SysPath =>
    some (match d.data.extra with
      | some e =>
        pad_right (e.syspath.getD (pad_right "-".toList ((pad b).getD 0)))
          ((pad b).getD 0)
      | none => pad_right "-".toList ((pad b).getD 0))
  | .Driver =>
    some (match d.data.extra with
      | some e =>
        pad_right (e.driver.getD (pad_right "-".toList ((pad b).getD 0)))
          ((pad b).getD 0)
      | none => pad_right "-".toList ((pad b).getD 0))
  | .ProductName =>
    some (match d.data.extra with
      | some e =>
        pad_right (e.product_name.getD (pad_right "-".toList ((pad b).getD 0)))
          ((pad b).getD 0)
      | none => pad_right "-".toList ((pad b).getD 0))
  | .VendorName =>
    some (match d.data.extra with
      | some e =>
        pad_right (e.vendor.getD (pad_right "-".toList ((pad b).getD 0)))
          ((pad b).getD 0)
      | none => pad_right "-".toList ((pad b).getD 0))
  | .Icon =>
    match settings.icons with
    | some i => some (i.get_device_icon d)
    | none => none
  | .VendorId =>
    some (match d.data.vendor_id with
      | some v => format_base_u16 v settings
      | none => pad_left "-".toList 6)
  | .ProductId =>
    some (match d.data.product_id with
      | some v => format_base_u16 v settings
      | none => pad_left "-".toList 6)
  | .Name => some (pad_right d.data.name ((pad b).getD 0))
  | .Manufacturer =>
    some (match d.data.manufacturer with
      | some v => pad_right v ((pad b).getD 0)
      | none => pad_right "-".toList ((pad b).getD 0))
  | .Serial =>
    some (match d.data.serial_num with
      | some v => pad_right v ((pad b).getD 0)
      | none => pad_right "-".toList ((pad b).getD 0))
  | .Speed =>
    some (match d.data.device_speed with
      | some v => pad_left v 10
      | none => pad_left "-".toList 10)
  | .TreePositions =>
    some (pad_right
      (List.intercalate "-".toList (d.data.location_id.tree_positions.map nat_to_dec))
      ((pad b).getD 0))
  | .BusPower =>
    some (match d.data.bus_power with
      | some v => pad_left (nat_to_dec v) 3 ++ " mA".toList
      | none => pad_left "-".toList 6)
  | .BusPowerUsed =>
    some (match d.data.bus_power_used with
      | some v => pad_left (nat_to_dec v) 3 ++ " mA".toList
      | none => pad_left "-".toList 6)
  | .ExtraCurrentUsed =>
    some (match d.data.extra_current_used with
      | some v => pad_left (nat_to_dec v) 3 ++ " mA".toList
      | none => pad_left "-".toList 6)
  | .BcdDevice =>
    some (match d.data.bcd_device with
      | some v => pad_right v 5
      | none => pad_left "-".toList 5)
  | .BcdUsb =>
    some (match d.data.bcd_usb with
      | some v => pad_right v 5
      | none => pad_left "-".toList 5)
  | .ClassCode =>
    some (match d.data.device_class with
      | some v => pad_right v ((pad b).getD 0)
      | none => pad_right "-".toList ((pad b).getD 0))
  | .SubClass =>
    some (match d.data.sub_class with
      | some v => format_base_u8 v settings
      | none => pad_left "-".toList 4)
  | .Protocol =>
    some (match d.data.protocol with
      | some v => format_base_u8 v settings
      | none => pad_left "-".toList 4)

/-- `struct TreeData`: tree-draw state passed to the print functions. The
source field `prefix` is named `prefixStr` here (`prefix` is reserved). The
source stores `trunk_index` as `u8` (`index as u8`), hence the `% 256`. -/
structure TreeData where
  branch_length : Nat := 0
  trunk_index : Nat := 0
  depth : Nat := 0
  prefixStr : RStr := []
deriving Repr

/-- `generate_tree_data`: derives the tree-draw state passed into a child
level from `current_tree`, the child level's `branch_length` and the current
item's `index` in its own branch. -/
def generate_tree_data (current_tree : TreeData) (branch_length : Nat)
    (index : Nat) (settings : PrintSettings) : TreeData :=
  let new_prefix :=
    if settings.tree then
      if current_tree.depth > 0 then
        let edge_icon :=
          if index + 1 ≠ current_tree.branch_length then Icon.TreeLine
          else Icon.TreeBlank
        current_tree.prefixStr ++
          (match settings.icons with
            | some i => i.get_tree_icon edge_icon
            | none => get_ascii_tree_icon edge_icon)
      else current_tree.prefixStr
    else current_tree.prefixStr
  { branch_length := branch_length
    trunk_index := index % 256
    depth := current_tree.depth + 1
    prefixStr := new_prefix }

/-- A chain of recursive descents through `generate_tree_data`: each step
supplies the `branch_length` and `index` arguments of one descent. -/
def descend_chain (t : TreeData) (settings : PrintSettings) :
    List (Nat × Nat) → TreeData
  | [] => t
  | (bl, i) :: rest => descend_chain (generate_tree_data t bl i settings) settings rest

/-- The per-line connector choice shared verbatim by `print_endpoints`,
`print_interfaces`, `print_configurations` and `print_devices`:
`if i + 1 != tree.branch_length { TreeEdge } else { TreeCorner }`. -/
def edge_icon_for (i : Nat) (branch_length : Nat) : Icon :=
  if i + 1 ≠ branch_length then Icon.TreeEdge else Icon.TreeCorner

/-- The `branch_length` that `print_devices` (and `print_flattened_devices`)
passes when recursing into `print_configurations`: "number of configurations
for this device plus devices still to print". -/
def config_branch_length (extra : DeviceExtra) (device : USBDevice) : Nat :=
  extra.configurations.length +
    (match device.devices with
      | some d => d.length
      | none => 0)

/-- The connector icon the configuration at index `i` receives when its
parent device (at `dev_index` with extended info `extra`) is printed in tree
mode: `print_devices` builds the child state with `generate_tree_data` and
`config_branch_length`, and `print_configurations` then applies
`edge_icon_for` against that state's `branch_length`. -/
def config_connector (t : TreeData) (settings : PrintSettings)
    (device : USBDevice) (extra : DeviceExtra) (dev_index i : Nat) : Icon :=
  edge_icon_for i
    (generate_tree_data t (config_branch_length extra device) dev_index
      settings).branch_length

/-- The connector icon a device at index `i` among a sibling list of length
`n` receives: the parent passed `generate_tree_data(tree, d.len(), parent_i)`. -/
def device_connector (t : TreeData) (settings : PrintSettings)
    (n parent_i i : Nat) : Icon :=
  edge_icon_for i (generate_tree_data t n parent_i settings).branch_length

/-- The connector icon an interface at index `i` receives:
`print_configurations` passed `config.interfaces.len()` as branch length. -/
def interface_connector (t : TreeData) (settings : PrintSettings)
    (config : USBConfiguration) (config_i i : Nat) : Icon :=
  edge_icon_for i
    (generate_tree_data t config.interfaces.length config_i settings).branch_length

/-- The connector icon an endpoint at index `i` receives: `print_interfaces`
passed `interface.endpoints.len()` as branch length. -/
def endpoint_connector (t : TreeData) (settings : PrintSettings)
    (interface : USBInterface) (interface_i i : Nat) : Icon :=
  edge_icon_for i
    (generate_tree_data t interface.endpoints.length interface_i settings).branch_length

/-- Modelled from the spec: `get_branch_position` is a `USBDevice` method in
`system_profiler.rs` (not under review) giving the "position of device in
parent branch"; carried as the stored attribute `branch_position`. -/
def USBDevice.get_branch_position (d : USBDevice) : Nat := d.data.branch_position

/-- `Sort::sort_devices`: clones `d` and sorts it by the policy's key.
`Vec::sort_by_key` is a stable ascending sort, modelled with the stable
`List.mergeSort` on the key's `≤`. The `NoSort` arm leaves the clone as is. -/
def SortOrder.sort_devices (s : SortOrder) (d : List USBDevice) : List USBDevice :=
  match s with
  | .BranchPosition =>
    d.mergeSort (fun a b => decide (a.get_branch_position ≤ b.get_branch_position))
  | .DeviceNumber =>
    d.mergeSort
      (fun a b => decide (a.data.location_id.number ≤ b.data.location_id.number))
  | .NoSort => d

/-- A randomness oracle standing in for `rand::thread_rng()`: `draw path k`
is the `k`-th draw consumed while masking the device at tree path `path`. -/
structure RandOracle where
  draw : List Nat → Nat → Nat

/-- `IteratorRandom::choose` on the characters of `l`: a uniformly random
element (`none` only when `l` is empty), the random draw being `r`. -/
def choose_char (l : RStr) (r : Nat) : Option Char := l.get? (r % l.length)

/-- The 62 symbols of rand's `Alphanumeric` distribution. -/
def alphanumeric_chars : RStr :=
  "ABCDEFGHIJKLMNOPQRSTUVWXYZabcdefghijklmnopqrstuvwxyz0123456789".toList

/-- One sample of the `Alphanumeric` distribution, the random draw being `r`. -/
def sample_alphanumeric (r : Nat) : Char :=
  alphanumeric_chars.getD (r % 62) 'A'

/-- The serial-string transformation inside `mask_serial`, one policy arm per
`MaskSerial` variant:
`Hide` maps every character to `*`; `Scramble` redraws every position from the
serial's own characters (`choose(..).unwrap_or('*')`); `Replace` samples
`serial.chars().count()` fresh alphanumeric characters and upper-cases the
result. `rng k` is the `k`-th random draw. -/
def mask_serial_string (hide : MaskSerial) (serial : RStr) (rng : Nat → Nat) : RStr :=
  match hide with
  | .Hide => serial.map (fun _ => '*')
  | .Scramble =>
    (List.range serial.length).map
      (fun k => (choose_char serial (rng k)).getD '*')
  | .Replace =>
    ((List.range serial.length).map (fun k => sample_alphanumeric (rng k))).map
      Char.toUpper

mutual

/-- `mask_serial`: masks the device's own serial when present, and when
`recursive` walks into the child devices. `path` locates the device's
randomness stream in the oracle. -/
def mask_serial (R : RandOracle) (path : List Nat) (device : USBDevice)
    (hide : MaskSerial) (recursive : Bool) : USBDevice :=
  match device with
  | .mk data devices =>
    let new_data :=
      match data.serial_num with
      | some s => { data with serial_num := some (mask_serial_string hide s (R.draw path)) }
      | none => data
    let new_devices :=
      if recursive then
        match devices with
        | some ds => some (mask_serial_list R path 0 ds hide)
        | none => none
      else devices
    .mk new_data new_devices

/-- The `iter_mut().for_each(|d| mask_serial(d, hide, recursive))` loop over a
child list, with `i` the position of the head within its parent. -/
def mask_serial_list (R : RandOracle) (path : List Nat) (i : Nat)
    (ds : List USBDevice) (hide : MaskSerial) : List USBDevice :=
  match ds with
  | [] => []
  | d :: rest =>
    mask_serial R (i :: path) d hide true :: mask_serial_list R path (i + 1) rest hide

end

/-- Modelled from the spec: "Flatten: collapsing the recursive device tree
into a single ordered list" — each device is emitted with its parent/child
relationship collapsed (children removed), followed by its flattened
descendants. `SPUSBDataType::flatten` lives in `system_profiler.rs`, not under
review. -/
def flatten_list : List USBDevice → List USBDevice
  | [] => []
  | .mk data none :: rest => .mk data none :: flatten_list rest
  | .mk data (some ds) :: rest =>
    .mk data none :: (flatten_list ds ++ flatten_list rest)

/-- Modelled from the spec: per-bus flatten — the bus keeps a single flattened
device list. -/
def USBBus.flatten (b : USBBus) : USBBus :=
  { b with devices := b.devices.map flatten_list }

/-- Modelled from the spec: `SPUSBDataType::flatten` flattens every bus. -/
def SPUSBDataType.flatten (sp : SPUSBDataType) : SPUSBDataType :=
  { buses := sp.buses.map USBBus.flatten }

/-- Modelled from the spec: `SPUSBDataType::flatten_devices` — the single
ordered list of all devices of all buses, parent/child collapsed. -/
def SPUSBDataType.flatten_devices (sp : SPUSBDataType) : List USBDevice :=
  sp.buses.flatMap (fun b => flatten_list (b.devices.getD []))

/-- Modelled from the spec: a `USBFilter` (`system_profiler.rs`) is the
external filter collaborator; `display.rs` only consults `is_some()`, the
`exclude_empty_hub` flag and calls `retain_buses`. The matching criterion is
abstracted as a per-device predicate. -/
structure USBFilter where
  exclude_empty_hub : Bool
  matches_device : USBDevice → Bool

/-- Modelled from the spec: whether any device of the subtree matches. -/
def subtree_matches (f : USBFilter) : USBDevice → Bool
  | .mk data devices =>
    f.matches_device (.mk data devices) ||
      (match devices with
        | some ds => ds.attach.any (fun x => subtree_matches f x.val)
        | none => false)
decreasing_by
  have := List.sizeOf_lt_of_mem x.property
  simp only [USBDevice.mk.sizeOf_spec, Option.some.sizeOf_spec]
  omega

/-- Modelled from the spec: "drop non-matching devices ... will keep parents
of matched devices even if they do not match". -/
def retain_devices (f : USBFilter) : List USBDevice → List USBDevice
  | [] => []
  | .mk data devices :: rest =>
    let kept_children :=
      match devices with
      | some ds => some (retain_devices f ds)
      | none => none
    if subtree_matches f (.mk data devices) then
      .mk data kept_children :: retain_devices f rest
    else retain_devices f rest

/-- Modelled from the spec: `USBFilter::retain_buses` applies device
retention to every bus. -/
def USBFilter.retain_buses (f : USBFilter) (buses : List USBBus) : List USBBus :=
  buses.map (fun b => { b with devices := b.devices.map (retain_devices f) })

/-- Modelled from the spec: "a bus is hidden if it has no devices". -/
def USBBus.has_devices (b : USBBus) : Bool :=
  !(b.devices.getD []).isEmpty

/-- Modelled from the spec: "a hub is hidden if, after filtering, all its
descendants were removed" — a bus has an empty hub when some remaining device
still owns a child list that is empty. -/
def has_empty_hub_device : List USBDevice → Bool
  | [] => false
  | .mk _ (some []) :: _ => true
  | .mk _ (some (d :: ds)) :: rest =>
    has_empty_hub_device (d :: ds) || has_empty_hub_device rest
  | .mk _ none :: rest => has_empty_hub_device rest

/-- Modelled from the spec: `USBBus::has_empty_hubs`. -/
def USBBus.has_empty_hubs (b : USBBus) : Bool :=
  has_empty_hub_device (b.devices.getD [])

/-- The conditional hard flatten at the top of `prepare`: flatten now iff not
printing a tree AND (a filter is present, or grouping by bus, or json). -/
def prepare_flatten_step (sp : SPUSBDataType) (filter : Option USBFilter)
    (settings : PrintSettings) : SPUSBDataType :=
  if !settings.tree &&
      (filter.isSome || settings.group_devices == Group.Bus || settings.json) then
    sp.flatten
  else sp

/-- `prepare`: the pre-print pass — conditional flatten, filter, empty-bus /
empty-hub hiding, bus sort, recursive serial masking. -/
def prepare (R : RandOracle) (sp : SPUSBDataType) (filter : Option USBFilter)
    (settings : PrintSettings) : SPUSBDataType :=
  let sp1 := prepare_flatten_step sp filter settings
  let sp2 :=
    match filter with
    | some f => { buses := f.retain_buses sp1.buses }
    | none => sp1
  let sp3 :=
    if settings.hide_buses then
      let kept := sp2.buses.filter USBBus.has_devices
      match filter with
      | some f =>
        if f.exclude_empty_hub then
          { buses := kept.filter (fun b => !b.has_empty_hubs) }
        else { buses := kept }
      | none => { buses := kept }
    else sp2
  let sp4 :=
    if settings.sort_buses then
      { buses := sp3.buses.mergeSort (fun a b => decide (a.bus_number ≤ b.bus_number)) }
    else sp3
  match settings.mask_serials with
  | some hide =>
    { buses := sp4.buses.map (fun b =>
        { b with devices := b.devices.map (fun ds =>
            mask_serial_list R [b.bus_number] 0 ds hide) }) }
  | none => sp4

/-- What a call of `print` amounts to for the caller: it either emits json,
emits formatted text, or panics (aborts the process). -/
inductive PrintOutcome where
  | panicked
  | jsonOut (s : RStr)
  | textOut
deriving DecidableEq, Repr

/-- `print`: the main print function. `serde_json::to_string_pretty` is an
external serializer and can fail; it is passed in as `ser_sp` (for the whole
tree) and `ser_devs` (for a flattened device list). The source calls
`.unwrap()` on its result, which panics on the error case. The formatted-text
branches (`print_sp_usb`, `print_flattened_devices`) write text and are
summarised as `textOut`. -/
def print (sp : SPUSBDataType) (settings : PrintSettings)
    (ser_sp : SPUSBDataType → Except RStr RStr)
    (ser_devs : List USBDevice → Except RStr RStr) : PrintOutcome :=
  if settings.tree || settings.group_devices == Group.Bus then
    if settings.json then
      match ser_sp sp with
      | .ok s => .jsonOut s
      | .error _ => .panicked
    else .textOut
  else
    let devs := sp.flatten_devices
    if settings.json then
      match ser_devs devs with
      | .ok s => .jsonOut s
      | .error _ => .panicked
    else .textOut

/-- The serializer invocation `print` actually performs in json mode. -/
def active_serialization (sp : SPUSBDataType) (settings : PrintSettings)
    (ser_sp : SPUSBDataType → Except RStr RStr)
    (ser_devs : List USBDevice → Except RStr RStr) : Except RStr RStr :=
  if settings.tree || settings.group_devices == Group.Bus then ser_sp sp
  else ser_devs sp.flatten_devices

/-! ## Supporting lemmas -/

theorem pad_right_zero (s : RStr) : pad_right s 0 = s := by
  simp [pad_right]

theorem pad_right_length (s : RStr) (w : Nat) :
    (pad_right s w).length = max w s.length := by
  simp [pad_right]; omega

theorem pad_left_length (s : RStr) (w : Nat) :
    (pad_left s w).length = max w s.length := by
  simp [pad_left]; omega

theorem zero_pad_length (s : RStr) (w : Nat) :
    (zero_pad s w).length = max w s.length := by
  simp [zero_pad]; omega

theorem dec_digits_aux_length (f : Nat) :
    ∀ (k n : Nat), n < 10 ^ (k + 1) → (dec_digits_aux f n).length ≤ k + 1 := by
  induction f with
  | zero => intro k n _; simp [dec_digits_aux]
  | succ f ih =>
    intro k n h
    simp only [dec_digits_aux]
    by_cases hn : n < 10
    · simp [hn]
    · rw [if_neg hn]
      cases k with
      | zero => norm_num at h; omega
      | succ k =>
        have hd : n / 10 < 10 ^ (k + 1) := by
          have h10 : (0 : Nat) < 10 := by norm_num
          refine (Nat.div_lt_iff_lt_mul h10).mpr ?_
          calc n < 10 ^ (k + 1 + 1) := h
            _ = 10 ^ (k + 1) * 10 := by rw [pow_succ]
        have := ih k (n / 10) hd
        simp only [List.length_append, List.length_cons, List.length_nil]
        omega

theorem hex_digits_aux_length (f : Nat) :
    ∀ (k n : Nat), n < 16 ^ (k + 1) → (hex_digits_aux f n).length ≤ k + 1 := by
  induction f with
  | zero => intro k n _; simp [hex_digits_aux]
  | succ f ih =>
    intro k n h
    simp only [hex_digits_aux]
    by_cases hn : n < 16
    · simp [hn]
    · rw [if_neg hn]
      cases k with
      | zero => norm_num at h; omega
      | succ k =>
        have hd : n / 16 < 16 ^ (k + 1) := by
          have h16 : (0 : Nat) < 16 := by norm_num
          refine (Nat.div_lt_iff_lt_mul h16).mpr ?_
          calc n < 16 ^ (k + 1 + 1) := h
            _ = 16 ^ (k + 1) * 16 := by rw [pow_succ]
        have := ih k (n / 16) hd
        simp only [List.length_append, List.length_cons, List.length_nil]
        omega

/-- The lower-case hexadecimal character set. -/
def hex_lower_chars : RStr := "0123456789abcdef".toList

theorem hex_digits_aux_all_hex (f : Nat) :
    ∀ (n : Nat), (hex_digits_aux f n).all (fun c => hex_lower_chars.contains c) = true := by
  have hall : ∀ m, m < 16 → hex_lower_chars.contains (hex_char m) = true := by decide
  induction f with
  | zero => intro n; rfl
  | succ f ih =>
    intro n
    simp only [hex_digits_aux]
    by_cases hn : n < 16
    · simp only [if_pos hn, List.all_cons, List.all_nil, Bool.and_true]
      exact hall n hn
    · rw [if_neg hn, List.all_append, ih (n / 16),
        Bool.true_and, List.all_cons, List.all_nil, Bool.and_true]
      exact hall (n % 16) (Nat.mod_lt _ (by norm_num))

theorem zero_pad_all_hex (s : RStr) (w : Nat)
    (h : s.all (fun c => hex_lower_chars.contains c) = true) :
    (zero_pad s w).all (fun c => hex_lower_chars.contains c) = true := by
  rw [zero_pad, List.all_append, h, Bool.and_true]
  rw [List.all_eq_true]
  intro c hc
  rw [List.eq_of_mem_replicate hc]
  decide

/-! ## Claim C5 -/

/-- C5: with decimal mode off, `format_base_u16` renders exactly `0x` followed
by the 16-bit id's lower-case hex digits zero-padded to 4 (a 6-character
field); with decimal mode on, a space-padded right-aligned 6-character decimal
field. `format_base_u8` follows the analogous 2-hex-digit / 3-digit-decimal
rule. -/
theorem c5_format_base_widths (v16 v8 : Nat) (sdec shex : PrintSettings)
    (h16 : v16 < 65536) (h8 : v8 < 256)
    (hdec : sdec.decimal = true) (hhex : shex.decimal = false) :
    format_base_u16 v16 shex = '0' :: 'x' :: zero_pad (nat_to_hex v16) 4 ∧
    (zero_pad (nat_to_hex v16) 4).length = 4 ∧
    (zero_pad (nat_to_hex v16) 4).all (fun c => hex_lower_chars.contains c) = true ∧
    (format_base_u16 v16 shex).length = 6 ∧
    format_base_u16 v16 sdec = pad_left (nat_to_dec v16) 6 ∧
    (format_base_u16 v16 sdec).length = 6 ∧
    format_base_u8 v8 shex = '0' :: 'x' :: zero_pad (nat_to_hex v8) 2 ∧
    (zero_pad (nat_to_hex v8) 2).length = 2 ∧
    (format_base_u8 v8 shex).length = 4 ∧
    format_base_u8 v8 sdec = pad_left (nat_to_dec v8) 3 ∧
    (format_base_u8 v8 sdec).length = 3 := by
  have hx16 : (nat_to_hex v16).length ≤ 4 := by
    refine hex_digits_aux_length (v16 + 1) 3 v16 ?_
    norm_num
    omega
  have hx8 : (nat_to_hex v8).length ≤ 2 := by
    refine hex_digits_aux_length (v8 + 1) 1 v8 ?_
    norm_num
    omega
  have hd16 : (nat_to_dec v16).length ≤ 5 := by
    refine dec_digits_aux_length (v16 + 1) 4 v16 ?_
    norm_num
    omega
  have hd8 : (nat_to_dec v8).length ≤ 3 := by
    refine dec_digits_aux_length (v8 + 1) 2 v8 ?_
    norm_num
    omega
  have e16 : format_base_u16 v16 shex = '0' :: 'x' :: zero_pad (nat_to_hex v16) 4 := by
    simp [format_base_u16, hhex]
  have e8 : format_base_u8 v8 shex = '0' :: 'x' :: zero_pad (nat_to_hex v8) 2 := by
    simp [format_base_u8, hhex]
  have z16 : (zero_pad (nat_to_hex v16) 4).length = 4 := by
    rw [zero_pad_length]; omega
  have z8 : (zero_pad (nat_to_hex v8) 2).length = 2 := by
    rw [zero_pad_length]; omega
  refine ⟨e16, z16, zero_pad_all_hex _ _ (hex_digits_aux_all_hex _ _), ?_, ?_, ?_, e8, z8, ?_, ?_, ?_⟩
  · rw [e16]; simp [z16]
  · simp [format_base_u16, hdec]
  · simp only [format_base_u16, hdec, if_true, pad_left_length]; omega
  · rw [e8]; simp [z8]
  · simp [format_base_u8, hdec]
  · simp only [format_base_u8, hdec, if_true, pad_left_length]; omega

/-- C5 witness: id 0 renders as `0x0000` (hex mode) and `     0` (decimal
mode); an 8-bit 0 renders as `0x00` and `  0`; widths are as claimed. -/
theorem c5_format_base_widths_witness :
    format_base_u16 0 { decimal := false } = "0x0000".toList ∧
    format_base_u16 0 { decimal := true } = "     0".toList ∧
    (format_base_u16 0 { decimal := false }).length = 6 ∧
    (format_base_u16 0 { decimal := true }).length = 6 ∧
    format_base_u8 0 { decimal := false } = "0x00".toList ∧
    format_base_u8 0 { decimal := true } = "  0".toList := by
  refine ⟨by decide, by decide, ?_, ?_, by decide, by decide⟩
  · exact (c5_format_base_widths 0 0 { decimal := true } { decimal := false }
      (by decide) (by decide) rfl rfl).2.2.2.1
  · exact (c5_format_base_widths 0 0 { decimal := true } { decimal := false }
      (by decide) (by decide) rfl rfl).2.2.2.2.2.1

/-! ## Claim C9 -/

/-- C9: `DeviceBlocks::format_value` is total — it returns `Some` rendered
cell for every variant and device, except exactly the `Icon` variant when the
settings carry no icon theme (absent optional attributes render as `-`
placeholders rather than `None`). -/
theorem c9_format_value_total (b : DeviceBlocks) (d : USBDevice)
    (pad : Pad DeviceBlocks) (settings : PrintSettings) :
    (b.format_value d pad settings).isSome = true ↔
      ¬(b = DeviceBlocks.Icon ∧ settings.icons = none) := by
  cases b
  case Icon => cases h : settings.icons <;> simp [DeviceBlocks.format_value, h]
  all_goals simp [DeviceBlocks.format_value]

/-! ## Claim C4 -/

theorem generate_tree_data_depth (t : TreeData) (bl i : Nat) (s : PrintSettings) :
    (generate_tree_data t bl i s).depth = t.depth + 1 := rfl

theorem generate_tree_data_prefix_ext (t : TreeData) (bl i : Nat) (s : PrintSettings) :
    ∃ suf, (generate_tree_data t bl i s).prefixStr = t.prefixStr ++ suf := by
  simp only [generate_tree_data]
  by_cases h1 : s.tree = true
  · simp only [h1, if_true]
    by_cases h2 : t.depth > 0
    · simp only [if_pos h2]
      exact ⟨_, rfl⟩
    · simp only [if_neg h2]
      exact ⟨[], by simp⟩
  · simp only [h1]
    exact ⟨[], by simp⟩

theorem descend_chain_spec (settings : PrintSettings) :
    ∀ (steps : List (Nat × Nat)) (t : TreeData),
      (descend_chain t settings steps).depth = t.depth + steps.length ∧
      ∃ suf, (descend_chain t settings steps).prefixStr = t.prefixStr ++ suf
  | [], t => ⟨by simp [descend_chain], [], by simp [descend_chain]⟩
  | (bl, i) :: rest, t => by
    obtain ⟨hd, suf2, h2⟩ := descend_chain_spec settings rest (generate_tree_data t bl i settings)
    obtain ⟨suf1, h1⟩ := generate_tree_data_prefix_ext t bl i settings
    refine ⟨?_, suf1 ++ suf2, ?_⟩
    · simp only [descend_chain, hd, generate_tree_data_depth, List.length_cons]
      omega
    · simp only [descend_chain, h2, h1, List.append_assoc]

/-- C4: along every chain of recursive descents through `generate_tree_data`
(any settings, branch lengths and indices), depth grows by exactly 1 per
descent, the accumulated prefix length is non-decreasing, and a descendant's
prefix always begins with the ancestor's prefix as a literal substring. -/
theorem c4_tree_descent (t : TreeData) (settings : PrintSettings)
    (steps : List (Nat × Nat)) (bl i : Nat) :
    (generate_tree_data t bl i settings).depth = t.depth + 1 ∧
    (descend_chain t settings steps).depth = t.depth + steps.length ∧
    (∃ suf, (descend_chain t settings steps).prefixStr = t.prefixStr ++ suf) ∧
    t.prefixStr.length ≤ (descend_chain t settings steps).prefixStr.length := by
  obtain ⟨hdepth, suf, hsuf⟩ := descend_chain_spec settings steps t
  refine ⟨generate_tree_data_depth t bl i settings, hdepth, ⟨suf, hsuf⟩, ?_⟩
  rw [hsuf, List.length_append]
  omega

/-! ## Claim C3 -/

theorem edge_icon_for_corner (i m : Nat) :
    edge_icon_for i m = Icon.TreeCorner ↔ i + 1 = m := by
  unfold edge_icon_for
  by_cases h : i + 1 = m <;> simp [h]

/-- C3 (amended): in tree mode the corner connector is chosen iff
`index + 1` equals the draw state's `branch_length`. For devices, interfaces
and endpoints that branch length is the sibling count, so corner iff last
sibling; for configurations it is the number of configurations *plus* the
device's still-to-print child devices, so the last configuration of a device
that has child devices receives the edge connector, not the corner. -/
theorem c3_connector_choice (t : TreeData) (settings : PrintSettings)
    (n parent_i i ci ii : Nat) (device : USBDevice) (extra : DeviceExtra)
    (config : USBConfiguration) (interface : USBInterface) :
    (device_connector t settings n parent_i i = Icon.TreeCorner ↔ i + 1 = n) ∧
    (interface_connector t settings config ci i = Icon.TreeCorner ↔
      i + 1 = config.interfaces.length) ∧
    (endpoint_connector t settings interface ii i = Icon.TreeCorner ↔
      i + 1 = interface.endpoints.length) ∧
    (config_connector t settings device extra parent_i i = Icon.TreeCorner ↔
      i + 1 = config_branch_length extra device) ∧
    (∀ j, j + 1 ≠ config_branch_length extra device →
      config_connector t settings device extra parent_i j = Icon.TreeEdge) := by
    refine ⟨edge_icon_for_corner .., edge_icon_for_corner .., edge_icon_for_corner ..,
      edge_icon_for_corner .., ?_⟩
    intro j hj
    simp [config_connector, generate_tree_data, edge_icon_for, hj]

/-- The extended info of the C3 counterexample device: one configuration. -/
def c3_extra : DeviceExtra := { configurations := [{}] }

/-- The C3 counterexample device: one configuration and one child device. -/
def c3_device : USBDevice := .mk { extra := some c3_extra } (some [.mk {} none])

/-- C3 counterexample: for a device with exactly one configuration and one
child device still to be printed, the (only, hence last) configuration at
index 0 receives the edge connector, not the corner connector the claim
requires for the last sibling. -/
theorem c3_last_config_edge :
    config_connector {} { tree := true } c3_device c3_extra 0 0 = Icon.TreeEdge ∧
    config_connector {} { tree := true } c3_device c3_extra 0 0 ≠ Icon.TreeCorner ∧
    0 + 1 = c3_extra.configurations.length := by
  refine ⟨by decide, by decide, by decide⟩

/-- C3 witness: the amended rule at concrete inputs — among 3 sibling
devices the one at index 2 gets the corner; the single configuration of
`c3_device` (which still has a child device pending) gets the edge. -/
theorem c3_connector_choice_witness :
    device_connector {} { tree := true } 3 0 2 = Icon.TreeCorner ∧
    config_connector {} { tree := true } c3_device c3_extra 0 0 = Icon.TreeEdge := by
  constructor
  · exact (c3_connector_choice {} { tree := true } 3 0 2 0 0 c3_device c3_extra
      {} ⟨0, []⟩).1.mpr rfl
  · exact (c3_connector_choice {} { tree := true } 3 0 0 0 0 c3_device c3_extra
      {} ⟨0, []⟩).2.2.2.2 0 (by decide)


/-! ## Claims C7 and C10 -/

theorem mergeSort_key_pairwise {α : Type} (key : α → Nat) (l : List α) :
    (l.mergeSort (fun a b => decide (key a ≤ key b))).Pairwise
      (fun a b => key a ≤ key b) := by
  have h := @List.sorted_mergeSort α (fun a b : α => decide (key a ≤ key b))
    (by intro a b c hab hbc; simp only [decide_eq_true_eq] at *; omega)
    (by intro a b; simp only [Bool.or_eq_true, decide_eq_true_eq]; omega) l
  exact h.imp (fun hab => by simpa using hab)

theorem mergeSort_key_filter_stable {α : Type} (key : α → Nat) (l : List α) (k : Nat) :
    (l.mergeSort (fun a b => decide (key a ≤ key b))).filter (fun a => key a == k)
      = l.filter (fun a => key a == k) := by
  have hsub : List.Sublist (l.filter (fun a => key a == k))
      (l.mergeSort (fun a b => decide (key a ≤ key b))) := by
    refine List.sublist_mergeSort
      (by intro a b c hab hbc; simp only [decide_eq_true_eq] at *; omega)
      (by intro a b; simp only [Bool.or_eq_true, decide_eq_true_eq]; omega)
      ?_ (List.filter_sublist l)
    refine List.pairwise_of_forall_mem_list ?_
    intro a ha b hb
    rw [List.mem_filter] at ha hb
    have ha2 := ha.2
    have hb2 := hb.2
    simp only [beq_iff_eq] at ha2 hb2
    simp [ha2, hb2]
  have hsub2 := hsub.filter (fun a => key a == k)
  rw [List.filter_eq_self.mpr (fun a ha => (List.mem_filter.mp ha).2)] at hsub2
  have hlen : ((l.mergeSort (fun a b => decide (key a ≤ key b))).filter
      (fun a => key a == k)).length = (l.filter (fun a => key a == k)).length :=
    ((List.mergeSort_perm l _).filter _).length_eq
  exact (hsub2.eq_of_length hlen.symm).symm

/-- C7: `Sort::sort_devices` with `DeviceNumber` yields a list that is
non-decreasing in the bus-assigned device number, with `BranchPosition`
non-decreasing in the branch position, and with `NoSort` returns the input
unchanged. -/
theorem c7_sort_devices_order (l : List USBDevice) :
    (SortOrder.DeviceNumber.sort_devices l).Pairwise
      (fun a b => a.data.location_id.number ≤ b.data.location_id.number) ∧
    (SortOrder.BranchPosition.sort_devices l).Pairwise
      (fun a b => a.get_branch_position ≤ b.get_branch_position) ∧
    SortOrder.NoSort.sort_devices l = l := by
  refine ⟨?_, ?_, rfl⟩
  · exact mergeSort_key_pairwise (fun d => d.data.location_id.number) l
  · exact mergeSort_key_pairwise (fun d => d.get_branch_position) l

/-- C10: for every policy the output of `Sort::sort_devices` is a permutation
of the input (no device added, dropped or modified), and the sort is stable:
the subsequence of devices having any fixed sort key is exactly the same, in
the same order, before and after sorting (with `NoSort` the whole list is
returned unchanged). -/
theorem c10_sort_devices_perm_stable (s : SortOrder) (l : List USBDevice) :
    (s.sort_devices l).Perm l ∧
    (∀ k, (SortOrder.DeviceNumber.sort_devices l).filter
        (fun d => d.data.location_id.number == k) =
        l.filter (fun d => d.data.location_id.number == k)) ∧
    (∀ k, (SortOrder.BranchPosition.sort_devices l).filter
        (fun d => d.get_branch_position == k) =
        l.filter (fun d => d.get_branch_position == k)) ∧
    SortOrder.NoSort.sort_devices l = l := by
  refine ⟨?_, ?_, ?_, rfl⟩
  · cases s with
    | BranchPosition => exact List.mergeSort_perm l _
    | DeviceNumber => exact List.mergeSort_perm l _
    | NoSort => exact List.Perm.refl l
  · exact fun k => mergeSort_key_filter_stable (fun d => d.data.location_id.number) l k
  · exact fun k => mergeSort_key_filter_stable (fun d => d.get_branch_position) l k

/-! ## Claim C8 -/

/-- A device with no parent/child relationship left. -/
def device_childless : USBDevice → Bool
  | .mk _ none => true
  | .mk _ (some _) => false

/-- Every device of every bus is childless: the tree is fully flattened. -/
def SPUSBDataType.is_flattened (sp : SPUSBDataType) : Bool :=
  sp.buses.all (fun b => (b.devices.getD []).all device_childless)

theorem flatten_list_childless (l : List USBDevice) :
    (flatten_list l).all device_childless = true := by
  induction l using flatten_list.induct <;>
    simp_all [flatten_list, device_childless, List.all_append]

theorem flatten_is_flattened (sp : SPUSBDataType) :
    sp.flatten.is_flattened = true := by
  simp only [SPUSBDataType.flatten, SPUSBDataType.is_flattened, List.all_eq_true]
  intro b hb
  rw [List.mem_map] at hb
  obtain ⟨b0, _, rfl⟩ := hb
  cases h : b0.devices with
  | none => simp [USBBus.flatten, h]
  | some ds =>
    simp only [USBBus.flatten, h, Option.map_some', Option.getD_some]
    exact List.all_eq_true.mp (flatten_list_childless ds)

/-- C8: the `prepare` pass's first step fully flattens the tree (every
parent/child relationship collapsed into a single per-bus list) iff tree mode
is off and a filter is present, bus-grouping is selected or json output is
requested; in every other case that step returns the input tree untouched. -/
theorem c8_prepare_flatten_iff (sp : SPUSBDataType) (filter : Option USBFilter)
    (settings : PrintSettings) :
    ((settings.tree = false ∧
        (filter.isSome = true ∨ settings.group_devices = Group.Bus ∨
          settings.json = true)) →
      (prepare_flatten_step sp filter settings).is_flattened = true) ∧
    ((settings.tree = true ∨
        (filter = none ∧ settings.group_devices ≠ Group.Bus ∧
          settings.json = false)) →
      prepare_flatten_step sp filter settings = sp) := by
  constructor
  · rintro ⟨ht, hor⟩
    have hcond : (!settings.tree &&
        (filter.isSome || settings.group_devices == Group.Bus || settings.json)) = true := by
      rcases hor with h | h | h <;> simp [ht, h]
    rw [prepare_flatten_step, if_pos hcond]
    exact flatten_is_flattened sp
  · intro h
    have hcond : (!settings.tree &&
        (filter.isSome || settings.group_devices == Group.Bus || settings.json)) = false := by
      rcases h with h | ⟨h1, h2, h3⟩
      · simp [h]
      · subst h1; simp [h2, h3]
    rw [prepare_flatten_step, if_neg (by simp [hcond])]

/-- A two-level device tree on one bus, for the C8 witness. -/
def c8_sp : SPUSBDataType :=
  { buses := [{ bus_number := 1, devices := some [.mk {} (some [.mk {} none])] }] }

/-- C8 witness: with json output on (tree off, no filter, no grouping) the
step flattens the two-level tree; with all triggers off it leaves it alone. -/
theorem c8_prepare_flatten_iff_witness :
    (prepare_flatten_step c8_sp none { json := true }).is_flattened = true ∧
    prepare_flatten_step c8_sp none {} = c8_sp := by
  constructor
  · exact (c8_prepare_flatten_iff c8_sp none { json := true }).1
      ⟨rfl, Or.inr (Or.inr rfl)⟩
  · exact (c8_prepare_flatten_iff c8_sp none {}).2
      (Or.inr ⟨rfl, by decide, rfl⟩)

/-! ## Claim C1 -/

/-- C1 (amended): in json mode, `print` emits the serialized output when the
structured serialization succeeds, but panics — aborting the process via
`unwrap()` — when it fails; the error is never returned to the caller. -/
theorem c1_print_json_behavior (sp : SPUSBDataType) (settings : PrintSettings)
    (ser_sp : SPUSBDataType → Except RStr RStr)
    (ser_devs : List USBDevice → Except RStr RStr)
    (hjson : settings.json = true) :
    (∀ s, active_serialization sp settings ser_sp ser_devs = .ok s →
      print sp settings ser_sp ser_devs = .jsonOut s) ∧
    (∀ e, active_serialization sp settings ser_sp ser_devs = .error e →
      print sp settings ser_sp ser_devs = .panicked) := by
  unfold print active_serialization
  by_cases hb : (settings.tree || settings.group_devices == Group.Bus) = true
  · simp only [hb, if_true, hjson]
    exact ⟨fun s hs => by rw [hs], fun e he => by rw [he]⟩
  · simp only [hb, Bool.false_eq_true, if_false, hjson, if_true]
    exact ⟨fun s hs => by rw [hs], fun e he => by rw [he]⟩

/-- An empty tree, input of the C1 witness and counterexample. -/
def c1_sp : SPUSBDataType := { buses := [] }

/-- C1 counterexample: with json requested, a failing serializer makes `print`
panic (abort the process); no error value reaches the caller, contradicting
the claim that the failure is surfaced as a recoverable error. -/
theorem c1_print_panics_on_ser_error :
    print c1_sp { tree := true, json := true }
      (fun _ => .error "serialization failed".toList)
      (fun _ => .error "serialization failed".toList) = PrintOutcome.panicked := by
  rfl

/-- C1 witness: the amended behaviour at concrete inputs — success emits the
serialized string, failure panics. -/
theorem c1_print_json_behavior_witness :
    print c1_sp { tree := true, json := true }
      (fun _ => .ok "[]".toList) (fun _ => .ok "[]".toList)
      = PrintOutcome.jsonOut "[]".toList ∧
    print c1_sp { tree := true, json := true }
      (fun _ => .error "e".toList) (fun _ => .error "e".toList)
      = PrintOutcome.panicked := by
  constructor
  · exact (c1_print_json_behavior c1_sp { tree := true, json := true } _ _ rfl).1 _ rfl
  · exact (c1_print_json_behavior c1_sp { tree := true, json := true } _ _ rfl).2 _ rfl

/-! ## Claim C2 -/

/-- The length of the unpadded rendered value of a block for one device:
`format_value` evaluated with the empty padding table. -/
def unpadded_len (b : DeviceBlocks) (settings : PrintSettings) (d : USBDevice) : Nat :=
  ((b.format_value d empty_pad settings).getD []).length

theorem list_max_map_congr (c : Nat) (f g : USBDevice → Nat)
    (h : ∀ x, max c (f x) = max c (g x)) :
    ∀ l : List USBDevice, max c (list_max (l.map f)) = max c (list_max (l.map g))
  | [] => rfl
  | x :: l => by
    have h1 := h x
    have h2 := list_max_map_congr c f g h l
    simp only [List.map_cons, list_max, List.foldr_cons] at *
    omega

theorem padding_entry_eq (c : Nat) (f g : USBDevice → Nat) (d : List USBDevice)
    (h : ∀ x, max c (f x) = max c (g x)) :
    some (max c (list_max (d.map f))) = some (max c (list_max (d.map g))) :=
  congrArg some (list_max_map_congr c f g h d)

/-- C2 (amended): for every sibling batch, `DeviceBlocks::generate_padding`
computes exactly `max (heading length) (max over the batch of the unpadded
rendered value length)` for each of the nine text columns Name, Serial,
Manufacturer, PortPath, SysPath, Driver, ProductName, VendorName and
ClassCode. (The remaining table entry, `TreePositions`, instead uses
`2 × number of tree positions`, which is not the rendered length; see the
counterexample.) -/
theorem c2_padding_text_columns (d : List USBDevice) (settings : PrintSettings) :
    DeviceBlocks.generate_padding d .Name =
      some (max (DeviceBlocks.Name.heading empty_pad).length
        (list_max (d.map (unpadded_len .Name settings)))) ∧
    DeviceBlocks.generate_padding d .Serial =
      some (max (DeviceBlocks.Serial.heading empty_pad).length
        (list_max (d.map (unpadded_len .Serial settings)))) ∧
    DeviceBlocks.generate_padding d .Manufacturer =
      some (max (DeviceBlocks.Manufacturer.heading empty_pad).length
        (list_max (d.map (unpadded_len .Manufacturer settings)))) ∧
    DeviceBlocks.generate_padding d .PortPath =
      some (max (DeviceBlocks.PortPath.heading empty_pad).length
        (list_max (d.map (unpadded_len .PortPath settings)))) ∧
    DeviceBlocks.generate_padding d .SysPath =
      some (max (DeviceBlocks.SysPath.heading empty_pad).length
        (list_max (d.map (unpadded_len .SysPath settings)))) ∧
    DeviceBlocks.generate_padding d .Driver =
      some (max (DeviceBlocks.Driver.heading empty_pad).length
        (list_max (d.map (unpadded_len .Driver settings)))) ∧
    DeviceBlocks.generate_padding d .ProductName =
      some (max (DeviceBlocks.ProductName.heading empty_pad).length
        (list_max (d.map (unpadded_len .ProductName settings)))) ∧
    DeviceBlocks.generate_padding d .VendorName =
      some (max (DeviceBlocks.VendorName.heading empty_pad).length
        (list_max (d.map (unpadded_len .VendorName settings)))) ∧
    DeviceBlocks.generate_padding d .ClassCode =
      some (max (DeviceBlocks.ClassCode.heading empty_pad).length
        (list_max (d.map (unpadded_len .ClassCode settings)))) := by
  have hname : ∀ x : USBDevice,
      max 4 x.data.name.length = max 4 (unpadded_len .Name settings x) := by
    intro x
    simp only [unpadded_len, DeviceBlocks.format_value, Option.getD_some, pad_right,
      empty_pad, Option.getD_none, List.length_append, List.length_replicate]
    omega
  have hserial : ∀ x : USBDevice,
      max 6 (x.data.serial_num.getD []).length =
        max 6 (unpadded_len .Serial settings x) := by
    intro x
    cases hx : x.data.serial_num with
    | none =>
      simp only [unpadded_len, DeviceBlocks.format_value, hx, Option.getD_none,
        Option.getD_some, empty_pad, pad_right, List.length_append,
        List.length_replicate, List.length_nil]
      decide
    | some v =>
      simp only [unpadded_len, DeviceBlocks.format_value, hx, Option.getD_some,
        empty_pad, Option.getD_none, pad_right, List.length_append, List.length_replicate]
      omega
  have hman : ∀ x : USBDevice,
      max 12 (x.data.manufacturer.getD []).length =
        max 12 (unpadded_len .Manufacturer settings x) := by
    intro x
    cases hx : x.data.manufacturer with
    | none =>
      simp only [unpadded_len, DeviceBlocks.format_value, hx, Option.getD_none,
        Option.getD_some, empty_pad, pad_right, List.length_append,
        List.length_replicate, List.length_nil]
      decide
    | some v =>
      simp only [unpadded_len, DeviceBlocks.format_value, hx, Option.getD_some,
        empty_pad, Option.getD_none, pad_right, List.length_append, List.length_replicate]
      omega
  have hpp : ∀ x : USBDevice,
      max 5 x.data.port_path.length = max 5 (unpadded_len .PortPath settings x) := by
    intro x
    simp only [unpadded_len, DeviceBlocks.format_value, Option.getD_some, pad_right,
      empty_pad, Option.getD_none, List.length_append, List.length_replicate]
    omega
  have hsys : ∀ x : USBDevice,
      max 5 ((x.data.extra.map (fun e => (e.syspath.getD []).length)).getD 0) =
        max 5 (unpadded_len .SysPath settings x) := by
    intro x
    cases hx : x.data.extra with
    | none =>
      simp only [unpadded_len, DeviceBlocks.format_value, hx, Option.map_none',
        Option.getD_none, Option.getD_some, empty_pad, pad_right,
        List.length_append, List.length_replicate, List.length_nil]
      decide
    | some e =>
      cases hs : e.syspath with
      | none =>
        simp only [unpadded_len, DeviceBlocks.format_value, hx, hs, Option.map_some',
          Option.getD_none, Option.getD_some, empty_pad, pad_right,
          List.length_append, List.length_replicate, List.length_nil]
        decide
      | some v =>
        simp only [unpadded_len, DeviceBlocks.format_value, hx, hs, Option.map_some',
          Option.getD_some, empty_pad, Option.getD_none, pad_right,
          List.length_append, List.length_replicate]
        omega
  have hdrv : ∀ x : USBDevice,
      max 6 ((x.data.extra.map (fun e => (e.driver.getD []).length)).getD 0) =
        max 6 (unpadded_len .Driver settings x) := by
    intro x
    cases hx : x.data.extra with
    | none =>
      simp only [unpadded_len, DeviceBlocks.format_value, hx, Option.map_none',
        Option.getD_none, Option.getD_some, empty_pad, pad_right,
        List.length_append, List.length_replicate, List.length_nil]
      decide
    | some e =>
      cases hs : e.driver with
      | none =>
        simp only [unpadded_len, DeviceBlocks.format_value, hx, hs, Option.map_some',
          Option.getD_none, Option.getD_some, empty_pad, pad_right,
          List.length_append, List.length_replicate, List.length_nil]
        decide
      | some v =>
        simp only [unpadded_len, DeviceBlocks.format_value, hx, hs, Option.map_some',
          Option.getD_some, empty_pad, Option.getD_none, pad_right,
          List.length_append, List.length_replicate]
        omega
  have hpn : ∀ x : USBDevice,
      max 5 ((x.data.extra.map (fun e => (e.product_name.getD []).length)).getD 0) =
        max 5 (unpadded_len .ProductName settings x) := by
    intro x
    cases hx : x.data.extra with
    | none =>
      simp only [unpadded_len, DeviceBlocks.format_value, hx, Option.map_none',
        Option.getD_none, Option.getD_some, empty_pad, pad_right,
        List.length_append, List.length_replicate, List.length_nil]
      decide
    | some e =>
      cases hs : e.product_name with
      | none =>
        simp only [unpadded_len, DeviceBlocks.format_value, hx, hs, Option.map_some',
          Option.getD_none, Option.getD_some, empty_pad, pad_right,
          List.length_append, List.length_replicate, List.length_nil]
        decide
      | some v =>
        simp only [unpadded_len, DeviceBlocks.format_value, hx, hs, Option.map_some',
          Option.getD_some, empty_pad, Option.getD_none, pad_right,
          List.length_append, List.length_replicate]
        omega
  have hvn : ∀ x : USBDevice,
      max 5 ((x.data.extra.map (fun e => (e.vendor.getD []).length)).getD 0) =
        max 5 (unpadded_len .VendorName settings x) := by
    intro x
    cases hx : x.data.extra with
    | none =>
      simp only [unpadded_len, DeviceBlocks.format_value, hx, Option.map_none',
        Option.getD_none, Option.getD_some, empty_pad, pad_right,
        List.length_append, List.length_replicate, List.length_nil]
      decide
    | some e =>
      cases hs : e.vendor with
      | none =>
        simp only [unpadded_len, DeviceBlocks.format_value, hx, hs, Option.map_some',
          Option.getD_none, Option.getD_some, empty_pad, pad_right,
          List.length_append, List.length_replicate, List.length_nil]
        decide
      | some v =>
        simp only [unpadded_len, DeviceBlocks.format_value, hx, hs, Option.map_some',
          Option.getD_some, empty_pad, Option.getD_none, pad_right,
          List.length_append, List.length_replicate]
        omega
  have hcc : ∀ x : USBDevice,
      max 5 (x.data.device_class.getD []).length =
        max 5 (unpadded_len .ClassCode settings x) := by
    intro x
    cases hx : x.data.device_class with
    | none =>
      simp only [unpadded_len, DeviceBlocks.format_value, hx, Option.getD_none,
        Option.getD_some, empty_pad, pad_right, List.length_append,
        List.length_replicate, List.length_nil]
      decide
    | some v =>
      simp only [unpadded_len, DeviceBlocks.format_value, hx, Option.getD_some,
        empty_pad, Option.getD_none, pad_right, List.length_append, List.length_replicate]
      omega
  refine ⟨?_, ?_, ?_, ?_, ?_, ?_, ?_, ?_, ?_⟩
  · show some (max (DeviceBlocks.Name.heading empty_pad).length
      (list_max (d.map fun dev => dev.data.name.length))) = _
    rw [show (DeviceBlocks.Name.heading empty_pad).length = 4 from by decide]
    exact padding_entry_eq 4 _ _ d hname
  · show some (max (DeviceBlocks.Serial.heading empty_pad).length
      (list_max (d.map fun dev => (dev.data.serial_num.getD []).length))) = _
    rw [show (DeviceBlocks.Serial.heading empty_pad).length = 6 from by decide]
    exact padding_entry_eq 6 _ _ d hserial
  · show some (max (DeviceBlocks.Manufacturer.heading empty_pad).length
      (list_max (d.map fun dev => (dev.data.manufacturer.getD []).length))) = _
    rw [show (DeviceBlocks.Manufacturer.heading empty_pad).length = 12 from by decide]
    exact padding_entry_eq 12 _ _ d hman
  · show some (max (DeviceBlocks.PortPath.heading empty_pad).length
      (list_max (d.map fun dev => dev.data.port_path.length))) = _
    rw [show (DeviceBlocks.PortPath.heading empty_pad).length = 5 from by decide]
    exact padding_entry_eq 5 _ _ d hpp
  · show some (max (DeviceBlocks.SysPath.heading empty_pad).length
      (list_max (d.map fun dev =>
        (dev.data.extra.map (fun e => (e.syspath.getD []).length)).getD 0))) = _
    rw [show (DeviceBlocks.SysPath.heading empty_pad).length = 5 from by decide]
    exact padding_entry_eq 5 _ _ d hsys
  · show some (max (DeviceBlocks.Driver.heading empty_pad).length
      (list_max (d.map fun dev =>
        (dev.data.extra.map (fun e => (e.driver.getD []).length)).getD 0))) = _
    rw [show (DeviceBlocks.Driver.heading empty_pad).length = 6 from by decide]
    exact padding_entry_eq 6 _ _ d hdrv
  · show some (max (DeviceBlocks.ProductName.heading empty_pad).length
      (list_max (d.map fun dev =>
        (dev.data.extra.map (fun e => (e.product_name.getD []).length)).getD 0))) = _
    rw [show (DeviceBlocks.ProductName.heading empty_pad).length = 5 from by decide]
    exact padding_entry_eq 5 _ _ d hpn
  · show some (max (DeviceBlocks.VendorName.heading empty_pad).length
      (list_max (d.map fun dev =>
        (dev.data.extra.map (fun e => (e.vendor.getD []).length)).getD 0))) = _
    rw [show (DeviceBlocks.VendorName.heading empty_pad).length = 5 from by decide]
    exact padding_entry_eq 5 _ _ d hvn
  · show some (max (DeviceBlocks.ClassCode.heading empty_pad).length
      (list_max (d.map fun dev => (dev.data.device_class.getD []).length))) = _
    rw [show (DeviceBlocks.ClassCode.heading empty_pad).length = 5 from by decide]
    exact padding_entry_eq 5 _ _ d hcc

/-- The C2 counterexample device: tree positions `[1, 2, 3]`. -/
def c2_device : USBDevice := .mk { location_id := ⟨1, 1, [1, 2, 3]⟩ } none

/-- C2 counterexample: for a batch of one device at tree positions
`[1, 2, 3]` the `TreePositions` padding is `max(4, 2·3) = 6`, but the
unpadded rendered value is `1-2-3` of length 5 and the heading `TPos` has
length 4, so the tight maximum is 5: the computed width is not
`max(heading length, max rendered length)`. -/
theorem c2_tree_positions_not_tight :
    DeviceBlocks.generate_padding [c2_device] .TreePositions = some 6 ∧
    max (DeviceBlocks.TreePositions.heading empty_pad).length
      (list_max ([c2_device].map (unpadded_len .TreePositions ({} : PrintSettings)))) = 5 ∧
    DeviceBlocks.generate_padding [c2_device] .TreePositions ≠
      some (max (DeviceBlocks.TreePositions.heading empty_pad).length
        (list_max ([c2_device].map (unpadded_len .TreePositions ({} : PrintSettings))))) := by
  refine ⟨by decide, by decide, by decide⟩

/-! ## Claim C6 -/

/-- The uppercase alphanumeric character set. -/
def upper_alnum_chars : RStr := "ABCDEFGHIJKLMNOPQRSTUVWXYZ0123456789".toList

theorem mask_serial_string_length (hide : MaskSerial) (s : RStr) (rng : Nat → Nat) :
    (mask_serial_string hide s rng).length = s.length := by
  cases hide <;> simp [mask_serial_string]

theorem mask_hide_all_star (s : RStr) (rng : Nat → Nat) :
    (mask_serial_string .Hide s rng).all (fun c => c == '*') = true := by
  simp [mask_serial_string, List.all_eq_true]

theorem mask_scramble_all_mem (s : RStr) (rng : Nat → Nat) :
    (mask_serial_string .Scramble s rng).all (fun c => s.contains c) = true := by
  cases s with
  | nil => rfl
  | cons a as =>
    rw [List.all_eq_true]
    intro c hc
    rw [mask_serial_string] at hc
    rw [List.mem_map] at hc
    obtain ⟨k, hk, rfl⟩ := hc
    have hm : rng k % (a :: as).length < (a :: as).length :=
      Nat.mod_lt _ (by simp)
    rw [choose_char, List.get?_eq_get hm]
    simp only [Option.getD_some]
    exact List.elem_iff.mpr (List.get_mem _ _ hm)

theorem mask_replace_all_upper_alnum (s : RStr) (rng : Nat → Nat) :
    (mask_serial_string .Replace s rng).all
      (fun c => upper_alnum_chars.contains c) = true := by
  have hall : ∀ m, m < 62 →
      upper_alnum_chars.contains (Char.toUpper (alphanumeric_chars.getD m 'A')) = true := by
    decide
  rw [mask_serial_string, List.all_eq_true]
  intro c hc
  simp only [List.map_map, List.mem_map, List.mem_range, Function.comp] at hc
  obtain ⟨k, hk, rfl⟩ := hc
  rw [sample_alphanumeric]
  exact hall (rng k % 62) (Nat.mod_lt _ (by norm_num))

/-- C6 (amended): `mask_serial` preserves the serial's character count under
all three policies; under `Hide` every character is `*`, under `Scramble`
every character comes from the original serial's character set, under
`Replace` every character is uppercase alphanumeric. A serial that is present
is replaced by exactly `mask_serial_string` of it; an absent serial stays
absent, and a device with no serial is wholly unchanged when recursion is
off (with recursion on, the serials of its descendants are still masked —
see the counterexample). -/
theorem c6_mask_serial_properties (hide : MaskSerial) (s : RStr) (rng : Nat → Nat)
    (R : RandOracle) (path : List Nat) (d : USBDevice) (recursive : Bool) :
    (mask_serial_string hide s rng).length = s.length ∧
    (mask_serial_string .Hide s rng).all (fun c => c == '*') = true ∧
    (mask_serial_string .Scramble s rng).all (fun c => s.contains c) = true ∧
    (mask_serial_string .Replace s rng).all
      (fun c => upper_alnum_chars.contains c) = true ∧
    (∀ ser, d.serial_num = some ser →
      (mask_serial R path d hide recursive).serial_num =
        some (mask_serial_string hide ser (R.draw path))) ∧
    (d.serial_num = none →
      (mask_serial R path d hide recursive).serial_num = none) ∧
    (d.serial_num = none → recursive = false →
      mask_serial R path d hide recursive = d) := by
  obtain ⟨data, devices⟩ := d
  refine ⟨mask_serial_string_length hide s rng, mask_hide_all_star s rng,
    mask_scramble_all_mem s rng, mask_replace_all_upper_alnum s rng, ?_, ?_, ?_⟩
  · intro ser hser
    replace hser : data.serial_num = some ser := hser
    simp [mask_serial, USBDevice.serial_num, USBDevice.data, hser]
  · intro hser
    replace hser : data.serial_num = none := hser
    simp [mask_serial, USBDevice.serial_num, USBDevice.data, hser]
  · intro hser hrec
    replace hser : data.serial_num = none := hser
    subst hrec
    simp [mask_serial, hser]

/-- A fixed randomness oracle for the C6 witness and counterexample. -/
def c6_oracle : RandOracle := ⟨fun _ _ => 0⟩

/-- A device whose serial is present (`AB12`). -/
def c6_masked_dev : USBDevice := .mk { serial_num := some "AB12".toList } none

/-- A device with no serial and no children. -/
def c6_bare_dev : USBDevice := .mk {} none

/-- C6 witness: masking the serial `AB12` with `Hide` yields `****` (same
length, all asterisks), and a serial-less childless device is unchanged when
recursion is off. -/
theorem c6_mask_serial_properties_witness :
    (mask_serial c6_oracle [] c6_masked_dev .Hide true).serial_num =
      some (mask_serial_string .Hide "AB12".toList (c6_oracle.draw [])) ∧
    mask_serial_string .Hide "AB12".toList (c6_oracle.draw []) = "****".toList ∧
    (mask_serial_string .Hide "AB12".toList (c6_oracle.draw [])).length = 4 ∧
    mask_serial c6_oracle [] c6_bare_dev .Hide false = c6_bare_dev := by
  refine ⟨?_, by decide, ?_, ?_⟩
  · exact (c6_mask_serial_properties .Hide [] (c6_oracle.draw []) c6_oracle []
      c6_masked_dev true).2.2.2.2.1 _ rfl
  · have h := (c6_mask_serial_properties .Hide "AB12".toList (c6_oracle.draw [])
      c6_oracle [] c6_masked_dev true).1
    rw [h]; decide
  · exact (c6_mask_serial_properties .Hide [] (c6_oracle.draw []) c6_oracle []
      c6_bare_dev false).2.2.2.2.2.2 rfl rfl

/-- A device with no serial whose only child carries the serial `A`. -/
def c6_parent : USBDevice :=
  .mk {} (some [.mk { serial_num := some "A".toList } none])

/-- C6 counterexample: a device with no serial of its own is *not* left
unchanged by `mask_serial` with recursion on — its child's serial is masked.
-/
theorem c6_noserial_device_changed :
    mask_serial c6_oracle [] c6_parent .Hide true ≠ c6_parent := by
  intro h
  have hL : ((USBDevice.devices (mask_serial c6_oracle [] c6_parent .Hide true)).getD
      []).map USBDevice.serial_num = [some "*".toList] := by
    simp [c6_parent, mask_serial, mask_serial_list, mask_serial_string,
      USBDevice.devices, USBDevice.serial_num, USBDevice.data]
  have hR : ((USBDevice.devices c6_parent).getD []).map USBDevice.serial_num =
      [some "A".toList] := rfl
  rw [h, hR] at hL
  exact absurd hL (by decide)

end Cyme
